import Mathlib

/-!
Shallow embedding of the review pipeline of the `cli-pr-reviewer` repository
(package `pr_review`): diff acquisition (`git_utils/core.py`), prompt
construction (`ai_providers/gemini.py`), provider dispatch
(`ai_providers/core.py`), streamed response accumulation and verdict
extraction (`output/formatters.py`), and the orchestrating `review` command
(`cli.py`).  Python strings are modelled as Lean `String` (a sequence of
code points, matching Python's `str`); external effects (the `git diff`
subprocess and the Gemini network call) are modelled as explicit oracle
inputs.  Definitions follow the source line by line; theorems settle the
spec claims.
-/

namespace PrReview

/-! ### Python-semantics helpers -/

/-- Python truthiness of an `Optional[str]`: `None` and `""` are falsy. -/
def pyTruthyOptStr : Option String → Bool
  | none => false
  | some s => !s.isEmpty

/-- Python truthiness of an `Optional[int]` (modelled on `Nat`):
`None` and `0` are falsy. -/
def pyTruthyOptNat : Option Nat → Bool
  | none => false
  | some n => n != 0

/-- Python `a or b` where `a` is an `Optional[str]` and `b` a `str`:
returns `b` when `a` is `None` or the empty string. -/
def pyOrS (a : Option String) (b : String) : String :=
  match a with
  | none => b
  | some s => if s.isEmpty then b else s

/-- The whitespace characters removed by Python's `str.strip()`
(ASCII subset). -/
def isPyWhitespace (c : Char) : Bool :=
  c = ' ' || c = '\t' || c = '\n' || c = '\r' || c = '\x0b' || c = '\x0c'

/-- Python `s.strip()`: remove leading and trailing whitespace. -/
def pyStrip (s : String) : String :=
  ⟨((s.data.dropWhile isPyWhitespace).reverse.dropWhile isPyWhitespace).reverse⟩

/-- Python slice `s[:n]` for a nonnegative `n`. -/
def pyTake (s : String) (n : Nat) : String :=
  ⟨s.data.take n⟩

/-- Python `s.upper()`: uppercase every character (ASCII model). -/
def pyToUpper (s : String) : String :=
  ⟨s.data.map Char.toUpper⟩

/-- Substring search on character lists, the semantics of Python's
`needle in hay`. -/
def listContains (needle : List Char) : List Char → Bool
  | [] => needle.isEmpty
  | c :: rest => needle.isPrefixOf (c :: rest) || listContains needle rest

/-- Python `needle in hay` on strings. -/
def strContains (hay needle : String) : Bool :=
  listContains needle.data hay.data

/-! ### `exceptions.py` -/

/-- `PrReviewError(message, exit_code)`, the repository's base exception
carrying the process exit code (default 1). -/
structure PrReviewError where
  message : String
  exit_code : Nat := 1
deriving DecidableEq, Repr

/-! ### `git_utils/core.py` -/

/-- Result of `subprocess.run(cmd, ..., check=True)`: captured stdout and
stderr, and whether the tool exited zero (`success = false` makes
`check=True` raise `CalledProcessError`). -/
structure SubprocessResult where
  stdout : String
  stderr : String
  success : Bool
deriving DecidableEq, Repr

/-- `construct_diff_command(staged, unstaged, file_path, commit, diff_args)`:
build the `git diff` argument list.  `diff_args = []` models Python's
`None`/empty list (both falsy). -/
def construct_diff_command (staged unstaged : Bool)
    (file_path commit : Option String) (diff_args : List String) :
    List String :=
  let cmd := ["git", "diff"]
  if staged then
    cmd ++ ["--cached"]
  else if pyTruthyOptStr file_path then
    cmd ++ ["--", file_path.getD ""]
  else if pyTruthyOptStr commit then
    let c := commit.getD ""
    if strContains c ".." then
      cmd ++ [c]
    else
      cmd ++ [c ++ "^.." ++ c]
  else if !diff_args.isEmpty then
    cmd ++ diff_args
  else if !unstaged then
    cmd ++ ["--cached"]
  else
    cmd

/-- The f-string
`f"\n\n[Diff truncated to {max_chars} characters. Original size: {len(diff_text)} characters]"`
appended by `get_git_diff` when truncating. -/
def truncation_notice (max_chars orig_len : Nat) : String :=
  "\n\n[Diff truncated to " ++ toString max_chars ++
    " characters. Original size: " ++ toString orig_len ++ " characters]"

/-- `get_git_diff(...)`: run the constructed `git diff` command (the external
process is the oracle `run`); on failure raise `PrReviewError` with exit
code 3 and the tool's stripped stderr; on success apply the
`if max_chars and len(diff_text) > max_chars` truncation policy. -/
def get_git_diff (staged unstaged : Bool) (file_path commit : Option String)
    (diff_args : List String) (max_chars : Option Nat)
    (run : List String → SubprocessResult) :
    Except PrReviewError String :=
  let cmd := construct_diff_command staged unstaged file_path commit diff_args
  let result := run cmd
  if result.success then
    let diff_text := result.stdout
    if pyTruthyOptNat max_chars = true ∧ max_chars.getD 0 < diff_text.length then
      let truncated_message :=
        truncation_notice (max_chars.getD 0) diff_text.length
      Except.ok (pyTake diff_text (max_chars.getD 0) ++ truncated_message)
    else
      Except.ok diff_text
  else
    Except.error { message := "Git error: " ++ pyStrip result.stderr, exit_code := 3 }

/-! ### `ai_providers/gemini.py` -/

/-- The constant instruction header of `make_prompt`: the value of
`textwrap.dedent(...)` applied to the source's triple-quoted literal
(whitespace-only lines normalised to empty, the common 4-space margin
removed), transcribed verbatim. -/
def make_prompt_header : String :=
  "\nYou\x27re an expert software engineer performing a detailed code review.\nEvaluate the provided pull request (PR) carefully, considering correctness,\nreadability, efficiency, adherence to best practices, and potential edge cases\nor bugs. Provide constructive feedback highlighting specific issues or suggestions\nfor improvements. Conclude your review explicitly with either `APPROVED` if the PR\nmeets high standards and can be merged without further changes, or `MAKE CHANGES`\nif revisions are required, clearly stating your reasoning.\n\n**Format in MARKDOWN syntax.** Do not wrap your entire response in markdown code fences (like ```markdown ... ```); just provide the raw markdown content starting directly with your feedback or conclusion.\n\nExample:\n\n```\n## Title: [Give a title for the PR]\nFeedback:\n- [Specific issue or suggestion #1]\n- [Specific issue or suggestion #2]\n- [Further detailed feedback as needed]\n\nCommit message:\n- [Commit message]\n\nConclusion: APPROVED\n\nor\n\n```\n## Title: [Give a title for the PR]\nFeedback:\n- [Specific issue or suggestion #1]\n- [Specific issue or suggestion #2]\n- [Further detailed feedback as needed]\n\nConclusion: MAKE CHANGES\n"

/-- `make_prompt(diff_text)`: `return header + diff_text`. -/
def make_prompt (diff_text : String) : String :=
  make_prompt_header ++ diff_text

/-- The parameters with which `send_to_gemini` configures the client and
opens the streaming generation call; producing such a record models
performing the network call. -/
structure GeminiCall where
  prompt : String
  api_key : String
  model : String
deriving DecidableEq, Repr

/-- `send_to_gemini(prompt, api_key, model)`: configure the client and open
the streaming call (the call itself is external; the record captures it). -/
def send_to_gemini (prompt api_key model : String) : GeminiCall :=
  { prompt := prompt, api_key := api_key, model := model }

/-! ### `ai_providers/core.py` -/

/-- `send_to_provider(prompt, provider, model, api_key)`: string dispatch on
the provider name; only `gemini` reaches a network call, `openai` and
`anthropic` raise distinct `PrReviewError`s with exit code 4, any other name
raises an unknown-provider `PrReviewError` with exit code 4.  (The source's
surrounding `try`/`except` re-raises `PrReviewError` unchanged.) -/
def send_to_provider (prompt provider model api_key : String) :
    Except PrReviewError GeminiCall :=
  if provider = "gemini" then
    Except.ok (send_to_gemini prompt api_key model)
  else if provider = "openai" then
    Except.error { message := "OpenAI provider not yet implemented", exit_code := 4 }
  else if provider = "anthropic" then
    Except.error { message := "Anthropic provider not yet implemented", exit_code := 4 }
  else
    Except.error { message := "Unknown provider: " ++ provider, exit_code := 4 }

/-! ### `output/formatters.py` -/

/-- One streamed chunk: `chunk.text` when `hasattr(chunk, "text")`,
otherwise no payload. -/
structure Fragment where
  text : Option String
deriving DecidableEq, Repr

/-- The accumulation loop of `print_response`: start from `full_text = ""`
and append `chunk.text` for every chunk that has a text attribute. -/
def accumulate_stream (stream : List Fragment) : String :=
  stream.foldl
    (fun full_text chunk =>
      match chunk.text with
      | some t => full_text ++ t
      | none => full_text)
    ""

/-- What `print_response` produces: the returned boolean (`true` = review
passed / approved) and the optional status line printed by the secondary
`Conclusion:` checks. -/
structure PrintResponseResult where
  passed : Bool
  status_line : Option String
deriving DecidableEq, Repr

/-- `print_response(response_stream)`: accumulate the stream, then classify:
if `"MAKE CHANGES" in full_text.upper()` return `False` (printing the failed
line only when the literal `Conclusion: MAKE CHANGES` occurs), else return
`True` (printing the passed line only when `Conclusion: APPROVED` occurs). -/
def print_response (stream : List Fragment) : PrintResponseResult :=
  let full_text := accumulate_stream stream
  if strContains (pyToUpper full_text) "MAKE CHANGES" then
    { passed := false
      status_line :=
        if strContains full_text "Conclusion: MAKE CHANGES" then
          some "Review failed: Changes requested"
        else
          none }
  else
    { passed := true
      status_line :=
        if strContains full_text "Conclusion: APPROVED" then
          some "Review passed: Approved"
        else
          none }

/-! ### `cli.py` — the `review` command -/

/-- Observable outcome of one `review` invocation: the process exit code and
which collaborators were invoked before termination. -/
structure RunOutcome where
  exitCode : Nat
  gitDiffCalled : Bool
  promptBuilt : Bool
  providerCalled : Bool
  networkCalled : Bool
deriving DecidableEq, Repr

/-- `review_command(...)` of `cli.py`.  Oracles for the environment:
`config_provider`/`config_model` are `config.get('provider')` /
`config.get('model')` (absent key modelled as `none`), `env_api_key` is
`os.environ.get(f"{active_provider.upper()}_API_KEY")`, `config_api_key` is
`config.get('api_keys', {}).get(active_provider, '')`, `run` is the `git
diff` subprocess, and `gemini_stream` is the fragment sequence the Gemini
call would yield.  `sys.exit(e.exit_code)` in the `except PrReviewError`
handler is modelled by returning the error's exit code. -/
def review_command (staged unstaged : Bool) (file_path commit : Option String)
    (max_chars : Option Nat) (provider model : Option String)
    (ignore_errors : Bool) (diff_args : List String)
    (config_provider config_model : Option String)
    (env_api_key : Option String) (config_api_key : String)
    (run : List String → SubprocessResult) (gemini_stream : List Fragment) :
    RunOutcome :=
  let active_provider := pyOrS provider (config_provider.getD "gemini")
  let active_model := pyOrS model (config_model.getD "gemini-2.5-flash-preview-04-17")
  let api_key := pyOrS env_api_key config_api_key
  if api_key.isEmpty then
    { exitCode := 1, gitDiffCalled := false, promptBuilt := false
      providerCalled := false, networkCalled := false }
  else
    match get_git_diff staged unstaged file_path commit diff_args max_chars run with
    | Except.error e =>
        { exitCode := e.exit_code, gitDiffCalled := true, promptBuilt := false
          providerCalled := false, networkCalled := false }
    | Except.ok diff_text =>
        if (pyStrip diff_text).isEmpty then
          { exitCode := 0, gitDiffCalled := true, promptBuilt := false
            providerCalled := false, networkCalled := false }
        else
          let prompt := make_prompt diff_text
          match send_to_provider prompt active_provider active_model api_key with
          | Except.error e =>
              { exitCode := e.exit_code, gitDiffCalled := true, promptBuilt := true
                providerCalled := true, networkCalled := false }
          | Except.ok _ =>
              let res := print_response gemini_stream
              if !ignore_errors && !res.passed then
                { exitCode := 1, gitDiffCalled := true, promptBuilt := true
                  providerCalled := true, networkCalled := true }
              else
                { exitCode := 0, gitDiffCalled := true, promptBuilt := true
                  providerCalled := true, networkCalled := true }

/-! ### Concrete oracles used to instantiate the theorems -/

/-- A `git diff` oracle producing the one-character diff `"x"`. -/
def gitDiffX : List String → SubprocessResult :=
  fun _ => { stdout := "x", stderr := "", success := true }

/-- A `git diff` oracle producing the eight-character diff `"abcdefgh"`. -/
def gitLong : List String → SubprocessResult :=
  fun _ => { stdout := "abcdefgh", stderr := "", success := true }

/-- A `git diff` oracle producing a whitespace-only diff. -/
def gitWs : List String → SubprocessResult :=
  fun _ => { stdout := "  \n\t ", stderr := "", success := true }

/-- A one-fragment stream whose document concludes with `APPROVED`. -/
def approvedStream : List Fragment :=
  [{ text := some "Conclusion: APPROVED" }]

/-! ### Helper lemmas -/

theorem isPrefixOf_append_self : ∀ (l t : List Char), l.isPrefixOf (l ++ t) = true
  | [], _ => by simp [List.isPrefixOf]
  | a :: as, t => by
      simp [List.isPrefixOf, isPrefixOf_append_self as t]

theorem listContains_append_self (n post : List Char) :
    listContains n (n ++ post) = true := by
  cases n with
  | nil =>
      cases post with
      | nil => rfl
      | cons c r => simp [listContains, List.isPrefixOf]
  | cons a as =>
      simp [listContains, List.cons_append,
        isPrefixOf_append_self (a :: as) post]

theorem listContains_cons_of (n : List Char) (c : Char) (rest : List Char)
    (h : listContains n rest = true) : listContains n (c :: rest) = true := by
  simp [listContains, h]

theorem listContains_append_of (pre n post : List Char) :
    listContains n (pre ++ (n ++ post)) = true := by
  induction pre with
  | nil => simpa using listContains_append_self n post
  | cons c cs ih => simpa using listContains_cons_of n c (cs ++ (n ++ post)) ih

theorem truncation_notice_contains_len (m l : Nat) :
    strContains (truncation_notice m l) (toString l) = true := by
  show listContains (toString l).data (truncation_notice m l).data = true
  have h : (truncation_notice m l).data =
      ("\n\n[Diff truncated to " ++ toString m ++
        " characters. Original size: ").data ++
        ((toString l).data ++ " characters]".data) := by
    simp [truncation_notice, String.data_append, List.append_assoc]
  rw [h]
  exact listContains_append_of _ _ _

theorem accumulate_stream_data (stream : List Fragment) : ∀ acc : String,
    (stream.foldl
        (fun full_text chunk =>
          match chunk.text with
          | some t => full_text ++ t
          | none => full_text)
        acc).data =
      acc.data ++ ((stream.filterMap Fragment.text).map String.data).flatten := by
  induction stream with
  | nil => intro acc; simp
  | cons f rest ih =>
      intro acc
      cases hf : f.text with
      | none => simp [List.foldl_cons, hf, ih acc, List.filterMap_cons, hf]
      | some t =>
          simp [List.foldl_cons, hf, ih (acc ++ t), List.filterMap_cons,
            String.data_append, List.append_assoc]

/-! ### Claim theorems -/

/-- C2: the verdict of `print_response` is exactly the uppercase
`MAKE CHANGES` substring test on the accumulated document — `passed = false`
(ChangesRequested) iff the uppercased document contains `MAKE CHANGES`, and
`passed = true` (Approved) otherwise; the empty stream (empty document)
classifies as Approved.  Since `passed` is fully determined by this test,
the secondary `Conclusion:` checks (which only pick `status_line`) cannot
affect the returned verdict. -/
theorem C2_verdict_policy (stream : List Fragment) :
    ((print_response stream).passed = false ↔
      strContains (pyToUpper (accumulate_stream stream)) "MAKE CHANGES" = true) ∧
    ((print_response stream).passed = true ↔
      strContains (pyToUpper (accumulate_stream stream)) "MAKE CHANGES" = false) ∧
    (print_response []).passed = true := by
  refine ⟨?_, ?_, by decide⟩ <;>
    cases h : strContains (pyToUpper (accumulate_stream stream)) "MAKE CHANGES" <;>
      simp [print_response, h]

/-- C8: the accumulated document is the concatenation, in arrival order, of
the text payloads of exactly the fragments that have one; a fragment with no
text payload is skipped, and the example stream `["AB", "CD", "EF"]` yields
`"ABCDEF"`. -/
theorem C8_stream_aggregation (stream : List Fragment) :
    accumulate_stream stream =
      String.join (stream.filterMap Fragment.text) ∧
    accumulate_stream ({ text := none } :: stream) = accumulate_stream stream ∧
    accumulate_stream
        [{ text := some "AB" }, { text := some "CD" }, { text := some "EF" }] =
      "ABCDEF" := by
  refine ⟨?_, rfl, by decide⟩
  apply String.ext
  rw [String.data_join]
  simpa using accumulate_stream_data stream ""

/-- C9: `make_prompt d` is the constant header concatenated with `d`, hence
always ends with `d` unchanged; and the header contains the literal tokens
`APPROVED` and `MAKE CHANGES` and the instruction not to wrap the response
in code fences. -/
theorem C9_prompt_roundtrip (d : String) :
    make_prompt d = make_prompt_header ++ d ∧
    (make_prompt d).data = make_prompt_header.data ++ d.data ∧
    List.IsSuffix d.data (make_prompt d).data ∧
    strContains make_prompt_header "APPROVED" = true ∧
    strContains make_prompt_header "MAKE CHANGES" = true ∧
    strContains make_prompt_header
      "Do not wrap your entire response in markdown code fences" = true :=
  ⟨rfl, rfl, ⟨make_prompt_header.data, rfl⟩,
    by set_option maxRecDepth 40000 in decide,
    by set_option maxRecDepth 40000 in decide,
    by set_option maxRecDepth 40000 in decide⟩

/-- C4: `construct_diff_command` follows the precedence order exactly:
`staged` wins and adds `--cached`; else a (truthy) file path restricts the
diff to that path; else a (truthy) commit spec containing `..` is passed
verbatim while a single commit becomes `commit^..commit`; else nonempty raw
`diff_args` are forwarded verbatim; else, unless `unstaged` was requested,
the default is the staged (`--cached`) diff. -/
theorem C4_diff_precedence (staged unstaged : Bool)
    (file_path commit : Option String) (diff_args : List String) :
    (staged = true →
      construct_diff_command staged unstaged file_path commit diff_args =
        ["git", "diff", "--cached"]) ∧
    (staged = false → pyTruthyOptStr file_path = true →
      construct_diff_command staged unstaged file_path commit diff_args =
        ["git", "diff", "--", file_path.getD ""]) ∧
    (staged = false → pyTruthyOptStr file_path = false →
      pyTruthyOptStr commit = true →
      (strContains (commit.getD "") ".." = true →
        construct_diff_command staged unstaged file_path commit diff_args =
          ["git", "diff", commit.getD ""]) ∧
      (strContains (commit.getD "") ".." = false →
        construct_diff_command staged unstaged file_path commit diff_args =
          ["git", "diff", (commit.getD "") ++ "^.." ++ (commit.getD "")])) ∧
    (staged = false → pyTruthyOptStr file_path = false →
      pyTruthyOptStr commit = false → diff_args ≠ [] →
      construct_diff_command staged unstaged file_path commit diff_args =
        ["git", "diff"] ++ diff_args) ∧
    (staged = false → pyTruthyOptStr file_path = false →
      pyTruthyOptStr commit = false → diff_args = [] → unstaged = false →
      construct_diff_command staged unstaged file_path commit diff_args =
        ["git", "diff", "--cached"]) ∧
    (staged = false → pyTruthyOptStr file_path = false →
      pyTruthyOptStr commit = false → diff_args = [] → unstaged = true →
      construct_diff_command staged unstaged file_path commit diff_args =
        ["git", "diff"]) := by
  refine ⟨?_, ?_, ?_, ?_, ?_, ?_⟩
  · intro h1; simp [construct_diff_command, h1]
  · intro h1 h2; simp [construct_diff_command, h1, h2]
  · intro h1 h2 h3
    refine ⟨?_, ?_⟩ <;> intro h4 <;>
      simp [construct_diff_command, h1, h2, h3, h4]
  · intro h1 h2 h3 h4; simp [construct_diff_command, h1, h2, h3, h4]
  · intro h1 h2 h3 h4 h5; simp [construct_diff_command, h1, h2, h3, h4, h5]
  · intro h1 h2 h3 h4 h5; simp [construct_diff_command, h1, h2, h3, h4, h5]

/-- C4 witness: every arm of the precedence table evaluated on a concrete
request. -/
theorem C4_diff_precedence_witness :
    construct_diff_command true false none none [] =
      ["git", "diff", "--cached"] ∧
    construct_diff_command false false (some "f.js") none [] =
      ["git", "diff", "--", "f.js"] ∧
    construct_diff_command false false none (some "a..b") [] =
      ["git", "diff", "a..b"] ∧
    construct_diff_command false false none (some "abc") [] =
      ["git", "diff", "abc^..abc"] ∧
    construct_diff_command false false none none ["HEAD~3..HEAD"] =
      ["git", "diff", "HEAD~3..HEAD"] ∧
    construct_diff_command false false none none [] =
      ["git", "diff", "--cached"] ∧
    construct_diff_command false true none none [] =
      ["git", "diff"] :=
  ⟨(C4_diff_precedence true false none none []).1 rfl,
   (C4_diff_precedence false false (some "f.js") none []).2.1 rfl (by decide),
   ((C4_diff_precedence false false none (some "a..b") []).2.2.1 rfl
     (by decide) (by decide)).1 (by decide),
   ((C4_diff_precedence false false none (some "abc") []).2.2.1 rfl
     (by decide) (by decide)).2 (by decide),
   (C4_diff_precedence false false none none ["HEAD~3..HEAD"]).2.2.2.1 rfl
     (by decide) (by decide) (by decide),
   (C4_diff_precedence false false none none []).2.2.2.2.1 rfl
     (by decide) (by decide) rfl rfl,
   (C4_diff_precedence false true none none []).2.2.2.2.2 rfl
     (by decide) (by decide) rfl rfl⟩

/-- C7: for every provider name other than `gemini`, `send_to_provider`
raises a `PrReviewError` with exit code 4 (so no `GeminiCall`, i.e. no
network call, is ever produced): `openai` and `anthropic` each raise their
distinct "not yet implemented" error, and any other name raises the
"Unknown provider" error. -/
theorem C7_provider_dispatch (prompt provider model api_key : String)
    (h : provider ≠ "gemini") :
    ∃ e : PrReviewError,
      send_to_provider prompt provider model api_key = Except.error e ∧
      e.exit_code = 4 ∧
      (provider = "openai" →
        e.message = "OpenAI provider not yet implemented") ∧
      (provider = "anthropic" →
        e.message = "Anthropic provider not yet implemented") ∧
      (provider ≠ "openai" → provider ≠ "anthropic" →
        e.message = "Unknown provider: " ++ provider) := by
  by_cases h1 : provider = "openai"
  · exact ⟨{ message := "OpenAI provider not yet implemented", exit_code := 4 },
      by simp [send_to_provider, h, h1], rfl, fun _ => rfl,
      by simp [h1], by simp [h1]⟩
  · by_cases h2 : provider = "anthropic"
    · exact ⟨{ message := "Anthropic provider not yet implemented", exit_code := 4 },
        by simp [send_to_provider, h, h1, h2], rfl, by simp [h2], fun _ => rfl,
        by simp [h2]⟩
    · exact ⟨{ message := "Unknown provider: " ++ provider, exit_code := 4 },
        by simp [send_to_provider, h, h1, h2], rfl, by simp [h1], by simp [h2],
        fun _ _ => rfl⟩

/-- C7 witness: the dispatch evaluated at the concrete provider name
`openai`. -/
theorem C7_provider_dispatch_witness :
    ∃ e : PrReviewError,
      send_to_provider "p" "openai" "m" "k" = Except.error e ∧
      e.exit_code = 4 ∧
      ("openai" = "openai" →
        e.message = "OpenAI provider not yet implemented") ∧
      ("openai" = "anthropic" →
        e.message = "Anthropic provider not yet implemented") ∧
      ("openai" ≠ "openai" → "openai" ≠ "anthropic" →
        e.message = "Unknown provider: " ++ "openai") :=
  C7_provider_dispatch "p" "openai" "m" "k" (by decide)

/-- C10: `max_chars = 0` is treated as "no limit" because the guard tests
Python truthiness of `max_chars`: the diff text is returned unchanged, with
no truncation notice, whatever its length. -/
theorem C10_zero_max_chars (staged unstaged : Bool)
    (file_path commit : Option String) (diff_args : List String)
    (run : List String → SubprocessResult)
    (hs : (run (construct_diff_command staged unstaged file_path commit
      diff_args)).success = true) :
    get_git_diff staged unstaged file_path commit diff_args (some 0) run =
      Except.ok (run (construct_diff_command staged unstaged file_path commit
        diff_args)).stdout := by
  simp [get_git_diff, hs, pyTruthyOptNat]

/-- C10 witness: `max_chars = 0` on the eight-character diff `"abcdefgh"`
returns it unchanged. -/
theorem C10_zero_max_chars_witness :
    get_git_diff false false none none [] (some 0) gitLong =
      Except.ok "abcdefgh" :=
  C10_zero_max_chars false false none none [] gitLong rfl

/-- C1 counterexample: with the API key absent everywhere (no environment
value, empty config entry), the `review` command terminates with exit code
1 — not the claimed credential-failure exit code 4. -/
theorem C1_missing_key_counterexample :
    (review_command false false none none none none none false [] none none
      none "" gitDiffX []).exitCode = 1 ∧
    (review_command false false none none none none none false [] none none
      none "" gitDiffX []).exitCode ≠ 4 := by
  decide

/-- C1 (amended): whenever the API key resolves to absent (no environment
value and an empty config entry), the `review` command terminates with exit
code 1 (a plain `sys.exit(1)`), and neither the diff tool nor the prompt
builder nor the provider gateway is invoked before that termination. -/
theorem C1_missing_key (staged unstaged : Bool)
    (file_path commit : Option String) (max_chars : Option Nat)
    (provider model : Option String) (ignore_errors : Bool)
    (diff_args : List String) (config_provider config_model : Option String)
    (env_api_key : Option String) (config_api_key : String)
    (run : List String → SubprocessResult) (gemini_stream : List Fragment)
    (hkey : (pyOrS env_api_key config_api_key).isEmpty = true) :
    review_command staged unstaged file_path commit max_chars provider model
        ignore_errors diff_args config_provider config_model env_api_key
        config_api_key run gemini_stream =
      { exitCode := 1, gitDiffCalled := false, promptBuilt := false,
        providerCalled := false, networkCalled := false } := by
  simp [review_command, hkey]

/-- C1 witness: the amended behaviour at a concrete invocation with the key
absent. -/
theorem C1_missing_key_witness :
    review_command false false none none none none none false [] none none
        none "" gitDiffX [] =
      { exitCode := 1, gitDiffCalled := false, promptBuilt := false,
        providerCalled := false, networkCalled := false } :=
  C1_missing_key false false none none none none none false [] none none
    none "" gitDiffX [] rfl

/-- C3: on a successful pipeline run (key present, diff acquired and
non-blank, provider resolving to `gemini`), the verdict maps to the exit
code as: Approved exits 0, ChangesRequested exits 1, and with
`--ignore-errors` the exit code is 0 regardless of the verdict. -/
theorem C3_exit_mapping (staged unstaged : Bool)
    (file_path commit : Option String) (max_chars : Option Nat)
    (provider model : Option String) (ignore_errors : Bool)
    (diff_args : List String) (config_provider config_model : Option String)
    (env_api_key : Option String) (config_api_key : String)
    (run : List String → SubprocessResult) (gemini_stream : List Fragment)
    (d : String)
    (hkey : (pyOrS env_api_key config_api_key).isEmpty = false)
    (hprov : pyOrS provider (config_provider.getD "gemini") = "gemini")
    (hdiff : get_git_diff staged unstaged file_path commit diff_args max_chars
      run = Except.ok d)
    (hne : (pyStrip d).isEmpty = false) :
    (review_command staged unstaged file_path commit max_chars provider model
        ignore_errors diff_args config_provider config_model env_api_key
        config_api_key run gemini_stream).exitCode =
      if ignore_errors then 0
      else if (print_response gemini_stream).passed then 0 else 1 := by
  cases ignore_errors <;>
    cases hp : (print_response gemini_stream).passed <;>
      simp [review_command, hkey, hprov, hdiff, hne, send_to_provider, hp]

/-- C3 witness: a concrete successful run whose document concludes
`APPROVED` exits with code 0. -/
theorem C3_exit_mapping_witness :
    (review_command false false none none none none none false [] none none
      (some "k") "" gitDiffX approvedStream).exitCode = 0 := by
  rw [C3_exit_mapping false false none none none none none false [] none none
    (some "k") "" gitDiffX approvedStream "x" rfl rfl rfl rfl]
  decide

/-- C5: whenever the diff tool succeeds with output of length `L` and
`0 < M < L`, `get_git_diff` returns the first `M` characters followed by
the truncation notice — so the result length is exactly `M` plus the
notice's length, and the notice states the true original length `L`; when
`M ≥ L` the text is returned unchanged with no notice. -/
theorem C5_truncation (staged unstaged : Bool)
    (file_path commit : Option String) (diff_args : List String) (m : Nat)
    (run : List String → SubprocessResult) (r : SubprocessResult)
    (hr : run (construct_diff_command staged unstaged file_path commit
      diff_args) = r)
    (hs : r.success = true) :
    (0 < m → m < r.stdout.length →
      get_git_diff staged unstaged file_path commit diff_args (some m) run =
        Except.ok (pyTake r.stdout m ++
          truncation_notice m r.stdout.length) ∧
      (pyTake r.stdout m ++ truncation_notice m r.stdout.length).length =
        m + (truncation_notice m r.stdout.length).length ∧
      strContains (truncation_notice m r.stdout.length)
        (toString r.stdout.length) = true) ∧
    (r.stdout.length ≤ m →
      get_git_diff staged unstaged file_path commit diff_args (some m) run =
        Except.ok r.stdout) := by
  constructor
  · intro hm hlt
    refine ⟨?_, ?_, truncation_notice_contains_len m r.stdout.length⟩
    · simp [get_git_diff, hr, hs, pyTruthyOptNat, Nat.pos_iff_ne_zero.mp hm, hlt]
    · rw [String.length_append]
      congr 1
      show (r.stdout.data.take m).length = m
      rw [List.length_take]
      exact Nat.min_eq_left (Nat.le_of_lt hlt)
  · intro hge
    simp [get_git_diff, hr, hs, pyTruthyOptNat, Nat.not_lt.mpr hge]

/-- C5 witness: truncating the eight-character diff `"abcdefgh"` to three
characters. -/
theorem C5_truncation_witness :
    get_git_diff false false none none [] (some 3) gitLong =
      Except.ok (pyTake "abcdefgh" 3 ++ truncation_notice 3 8) ∧
    (pyTake "abcdefgh" 3 ++ truncation_notice 3 8).length =
      3 + (truncation_notice 3 8).length ∧
    strContains (truncation_notice 3 8) (toString 8) = true :=
  (C5_truncation false false none none [] 3 gitLong
    { stdout := "abcdefgh", stderr := "", success := true } rfl rfl).1
    (by decide) (by decide)

/-- C6: when the acquired diff text is empty or whitespace-only, the
`review` command terminates normally with exit code 0, and neither the
prompt builder nor the provider gateway is ever invoked. -/
theorem C6_empty_diff (staged unstaged : Bool)
    (file_path commit : Option String) (max_chars : Option Nat)
    (provider model : Option String) (ignore_errors : Bool)
    (diff_args : List String) (config_provider config_model : Option String)
    (env_api_key : Option String) (config_api_key : String)
    (run : List String → SubprocessResult) (gemini_stream : List Fragment)
    (d : String)
    (hkey : (pyOrS env_api_key config_api_key).isEmpty = false)
    (hdiff : get_git_diff staged unstaged file_path commit diff_args max_chars
      run = Except.ok d)
    (hws : (pyStrip d).isEmpty = true) :
    review_command staged unstaged file_path commit max_chars provider model
        ignore_errors diff_args config_provider config_model env_api_key
        config_api_key run gemini_stream =
      { exitCode := 0, gitDiffCalled := true, promptBuilt := false,
        providerCalled := false, networkCalled := false } := by
  simp [review_command, hkey, hdiff, hws]

/-- C6 witness: a whitespace-only diff short-circuits to exit 0 at a
concrete invocation. -/
theorem C6_empty_diff_witness :
    review_command false false none none none none none false [] none none
        (some "k") "" gitWs [] =
      { exitCode := 0, gitDiffCalled := true, promptBuilt := false,
        providerCalled := false, networkCalled := false } :=
  C6_empty_diff false false none none none none none false [] none none
    (some "k") "" gitWs [] "  \n\t " rfl rfl rfl

end PrReview
